import Mathlib

/-!
Shallow embedding of the schema-inference and type-normalization engine of
lkb-octopus (the `core` package), covering the data model and operations the
claims refer to:

* the type model (`core/Common.py`, `core/DataTypes/Numeric.py`, `Temporal.py`,
  `Categorical.py`, `Nested.py`, `Null.py`): `DataType` instances, Python
  equality (`DataType.__eq__` is `isinstance(other, type(self))`), hashing by
  class name, and `is_compatible`;
* promotion and casting (`core/DataTypes/Cast.py`): `TypeCast.promote_types`
  and `TypeCast.cast_value`, plus the per-type `DurationType.cast` method from
  `core/DataTypes/Temporal.py`;
* schema inference (`core/DataTypes/Schema.py`): `SchemaHelper.is_integer`,
  `is_decimal`, `is_datetime`, `SchemaInference.infer_type`, `infer_schema`,
  `_unify_types`;
* hostname normalization (`core/utility/Normalize.py`);
* the XML adapter of `core/io/XML.py` (`normalize_input`, `to_xml`'s
  `build_element`, `from_xml`'s `parse_element`), modelled at the level of
  element trees (`xml.etree.ElementTree` elements with tag, text, children).

Python values are modelled by the inductive `PyValue`; Python exceptions by
`Err` (the repository's exception classes from `core/Exceptions.py`, plus the
relevant Python built-in exception kinds).  Machine floats are modelled as a
NaN flag plus a rational: the engine only ever branches on NaN-ness
(`data != data`) and otherwise treats floats as exact numbers.

Several modules import `DataType` from a `core.DataTypes.Common` module that
does not exist in the repository; `core/Common.py` holds the only definition
of `DataType`, and this embedding uses it as the base class of all types.

Recursive functions are defined structurally over an explicit recursion-depth
argument (`fuel`), so that every definition reduces inside the kernel; each
public wrapper supplies fuel strictly larger than the recursion depth the
function can reach on its argument (the recursion of every modelled function
descends the structure of one of its arguments), so the fuel-exhausted branch
is unreachable through the wrappers.
-/

/-- Python exceptions reachable in the modelled code: the engine's own
exception classes (`core/Exceptions.py` defines `DataTypeError`,
`ConversionError`, `NormalizationError`; it defines no `CastError`) and the
Python built-ins that the engine lets escape uncaught. -/
inductive Err where
  | dataTypeError (msg : String)
  | conversionError (msg : String)
  | normalizationError (msg : String)
  | valueError (msg : String)
  | typeError (msg : String)
  | invalidOperation (msg : String)
  | attributeError (msg : String)
  | stopIteration (msg : String)
  deriving DecidableEq, Repr

/-- True for the exception classes defined by the engine itself
(`core/Exceptions.py`), false for Python built-ins. -/
def Err.isEngineError : Err → Bool
  | .dataTypeError _ => true
  | .conversionError _ => true
  | .normalizationError _ => true
  | _ => false

/-- The message text of an exception (Python `str(e)`). -/
def Err.message : Err → String
  | .dataTypeError m => m
  | .conversionError m => m
  | .normalizationError m => m
  | .valueError m => m
  | .typeError m => m
  | .invalidOperation m => m
  | .attributeError m => m
  | .stopIteration m => m

/-- The Python classes of the type model, used to model `isinstance`,
`type(x)` and the class-based `__eq__`/`__hash__` of `core/Common.py`.
`EnumType` (defined in `core/DataTypes/Categorical.py` but not exported by
`core/DataTypes/Types.py` and not referenced by the claimed operations) is
omitted. -/
inductive PyClass where
  | cDataType
  | cBaseNull
  | cNumeric | cInteger | cFloat | cDecimal | cNumericNull
  | cTemporal | cDate | cDatetime | cTime | cDuration | cTemporalNull
  | cCategorical | cBoolean | cString | cBinary | cCategoricalNull
  | cNested | cList | cStruct | cNestedNull
  deriving DecidableEq, Repr

/-- The direct superclass of each class (`DataType` is the root; its own
entry is unused).  Mirrors the class statements of the source:
`IntegerType(NumericType)`, `NumericNullType(BaseNullType)`,
`ListType(NestedType)`, `NestedNullType(BaseNullType)`, and so on. -/
def PyClass.parent : PyClass → PyClass
  | .cDataType => .cDataType
  | .cBaseNull => .cDataType
  | .cNumeric => .cDataType
  | .cInteger => .cNumeric
  | .cFloat => .cNumeric
  | .cDecimal => .cNumeric
  | .cNumericNull => .cBaseNull
  | .cTemporal => .cDataType
  | .cDate => .cTemporal
  | .cDatetime => .cTemporal
  | .cTime => .cTemporal
  | .cDuration => .cTemporal
  | .cTemporalNull => .cBaseNull
  | .cCategorical => .cDataType
  | .cBoolean => .cCategorical
  | .cString => .cCategorical
  | .cBinary => .cCategorical
  | .cCategoricalNull => .cBaseNull
  | .cNested => .cDataType
  | .cList => .cNested
  | .cStruct => .cNested
  | .cNestedNull => .cBaseNull

/-- `issubclass(a, b)`: reflexive-transitive closure of `parent`.  All chains
in the hierarchy have length at most 2 below `DataType`, so two parent steps
suffice. -/
def PyClass.subclassOf (a b : PyClass) : Bool :=
  a = b || a.parent = b || a.parent.parent = b

/-- The `DataType` instances of the type model: one constructor per concrete
class instantiated by the engine (`core/DataTypes/Types.py` vocabulary), plus
the bare `CategoricalType()` instance that `TypeCast.promote_types` returns
for irreconcilable categoricals.  `ListType` carries its `inner_type`,
`StructType` its ordered `fields` mapping. -/
inductive DataType where
  | IntegerType
  | FloatType
  | DecimalType
  | NumericNullType
  | DateType
  | DatetimeType
  | TimeType
  | DurationType
  | TemporalNullType
  | BooleanType
  | StringType
  | BinaryType
  | CategoricalNullType
  | CategoricalType
  | ListType (inner_type : DataType)
  | StructType (fields : List (String × DataType))
  | NestedNullType

namespace DataType

mutual

/-- Nesting depth of a type: 1 for scalars, one more than the payload for
`ListType`/`StructType`.  Used only to size the recursion-depth (`fuel`)
arguments of the functions below. -/
def depth : DataType → Nat
  | .ListType t => t.depth + 1
  | .StructType fs => fieldsDepth fs + 1
  | _ => 1

/-- Largest `depth` among the field types of a struct. -/
def fieldsDepth : List (String × DataType) → Nat
  | [] => 0
  | (_, t) :: rest => max t.depth (fieldsDepth rest)

end

/-- `type(t)`: the Python class of an instance. -/
def pyClass : DataType → PyClass
  | .IntegerType => .cInteger
  | .FloatType => .cFloat
  | .DecimalType => .cDecimal
  | .NumericNullType => .cNumericNull
  | .DateType => .cDate
  | .DatetimeType => .cDatetime
  | .TimeType => .cTime
  | .DurationType => .cDuration
  | .TemporalNullType => .cTemporalNull
  | .BooleanType => .cBoolean
  | .StringType => .cString
  | .BinaryType => .cBinary
  | .CategoricalNullType => .cCategoricalNull
  | .CategoricalType => .cCategorical
  | .ListType _ => .cList
  | .StructType _ => .cStruct
  | .NestedNullType => .cNestedNull

/-- `isinstance(t, c)`. -/
def instanceOf (t : DataType) (c : PyClass) : Bool :=
  t.pyClass.subclassOf c

/-- Python `t1 == t2` on types.  `DataType.__eq__` (`core/Common.py`) is
`isinstance(other, type(self))`; no subclass overrides it.  Python evaluates
the reflected `__eq__` first when the right operand's class is a proper
subclass of the left operand's class. -/
def pyEq (t1 t2 : DataType) : Bool :=
  if t2.pyClass.subclassOf t1.pyClass && t2.pyClass ≠ t1.pyClass then
    t1.instanceOf t2.pyClass
  else
    t2.instanceOf t1.pyClass

/-- `DataType.__repr__`, recursion-depth-indexed: the class name, with
`ListType`/`StructType` overriding it to show their structure
(`core/DataTypes/Nested.py`). -/
def pyReprFuel : Nat → DataType → String
  | _, .IntegerType => "IntegerType"
  | _, .FloatType => "FloatType"
  | _, .DecimalType => "DecimalType"
  | _, .NumericNullType => "NumericNullType"
  | _, .DateType => "DateType"
  | _, .DatetimeType => "DatetimeType"
  | _, .TimeType => "TimeType"
  | _, .DurationType => "DurationType"
  | _, .TemporalNullType => "TemporalNullType"
  | _, .BooleanType => "BooleanType"
  | _, .StringType => "StringType"
  | _, .BinaryType => "BinaryType"
  | _, .CategoricalNullType => "CategoricalNullType"
  | _, .CategoricalType => "CategoricalType"
  | 0, .ListType _ => ""
  | 0, .StructType _ => ""
  | n + 1, .ListType inner => "ListType(" ++ pyReprFuel n inner ++ ")"
  | n + 1, .StructType fields =>
      "StructType(" ++ String.intercalate ", "
        (fields.map (fun kv => kv.1 ++ ": " ++ pyReprFuel n kv.2)) ++ ")"
  | _, .NestedNullType => "NestedNullType"

/-- `DataType.__repr__` (`depth t` layers of fuel reach every nested
payload). -/
def pyRepr (t : DataType) : String := pyReprFuel t.depth t

/-- `isinstance(t, (NumericNullType, TemporalNullType, CategoricalNullType,
NestedNullType))`: the test `TypeCast.promote_types` uses for null
absorption.  Coincides with `isinstance(t, BaseNullType)` on this model. -/
def isNullVariant (t : DataType) : Bool :=
  t.instanceOf .cNumericNull || t.instanceOf .cTemporalNull ||
  t.instanceOf .cCategoricalNull || t.instanceOf .cNestedNull

/-- `t1.is_compatible(t2)`, resolved through the Python method-resolution
order of the source classes: `BaseNullType.is_compatible` returns `True` for
every other type (`core/DataTypes/Null.py`); `NumericType`, `TemporalType`
and `NestedType` override it with `isinstance(other, <their own base>)`;
the categorical classes do not override it, so they inherit
`DataType.is_compatible`, which is `isinstance(other, type(self))`
(`core/Common.py`). -/
def is_compatible (t1 t2 : DataType) : Bool :=
  if t1.instanceOf .cBaseNull then true
  else if t1.instanceOf .cNumeric then t2.instanceOf .cNumeric
  else if t1.instanceOf .cTemporal then t2.instanceOf .cTemporal
  else if t1.instanceOf .cNested then t2.instanceOf .cNested
  else t2.instanceOf t1.pyClass

end DataType

/-- First-occurrence deduplication of a key list, modelling iteration over a
Python `set` of strings built from the list (which keys survive is
determined by insertion order; the iteration order of the survivors is
unspecified in Python, and this model fixes first-occurrence order — no
settled claim depends on that order). -/
def dedupKeysAux (seen : List String) : List String → List String
  | [] => []
  | k :: rest =>
      if k ∈ seen then dedupKeysAux seen rest
      else k :: dedupKeysAux (k :: seen) rest

/-- `list(set(ks))` for a list of string keys, first-occurrence order. -/
def dedupKeys (ks : List String) : List String := dedupKeysAux [] ks

/-- First-occurrence deduplication of a list of types, modelling
`list(set(types))` in `SchemaInference._unify_types`.  Python's `set`
deduplicates with `DataType.__hash__` (the class name) and
`DataType.__eq__` (`isinstance(other, type(self))`), which on the engine's
instances coincide with equality of the instances' classes, so the set keeps
the first-inserted instance of each class; the iteration order of the
survivors is unspecified, and this model fixes first-occurrence order (no
settled claim depends on that order). -/
def pyDedupAux (seen : List PyClass) : List DataType → List DataType
  | [] => []
  | t :: rest =>
      if t.pyClass ∈ seen then pyDedupAux seen rest
      else t :: pyDedupAux (t.pyClass :: seen) rest

/-- `list(set(types))`, deduplicated by Python equality (= by class). -/
def pyDedup (ts : List DataType) : List DataType := pyDedupAux [] ts

/-- `fields.get(key, default)` on an ordered field mapping. -/
def getFieldD (fields : List (String × DataType)) (k : String)
    (default : DataType) : DataType :=
  (List.lookup k fields).getD default

namespace TypeCast

/-- `TypeCast.promote_types` (`core/DataTypes/Cast.py`), recursion-depth-
indexed.  Rules in source order: null absorption (either side a Null
variant), numeric (Decimal > Float > Integer), temporal
(Duration > Datetime > Date > Time), categorical (String wins; Boolean only
with Boolean; otherwise the bare `CategoricalType()`), element-wise List
promotion, field-union Struct promotion with absent fields defaulting to the
generic `NestedNullType()`, Binary-with-Binary (dead code: the categorical
rule already returns `CategoricalType()` for two Binaries), else
`DataTypeError`.  The struct rule's key union is a Python set union; the
model fixes first-occurrence order (fields of `type1`, then new fields of
`type2`). -/
def promoteFuel : Nat → DataType → DataType → Except Err DataType
  | 0, _, _ => .error (.dataTypeError "recursion limit exceeded")
  | n + 1, type1, type2 =>
    if type1.isNullVariant then .ok type2
    else if type2.isNullVariant then .ok type1
    else if type1.instanceOf .cNumeric && type2.instanceOf .cNumeric then
      if type1.instanceOf .cDecimal || type2.instanceOf .cDecimal then .ok .DecimalType
      else if type1.instanceOf .cFloat || type2.instanceOf .cFloat then .ok .FloatType
      else .ok .IntegerType
    else if type1.instanceOf .cTemporal && type2.instanceOf .cTemporal then
      if type1.instanceOf .cDuration || type2.instanceOf .cDuration then .ok .DurationType
      else if type1.instanceOf .cDatetime || type2.instanceOf .cDatetime then .ok .DatetimeType
      else if type1.instanceOf .cDate || type2.instanceOf .cDate then .ok .DateType
      else .ok .TimeType
    else if type1.instanceOf .cCategorical && type2.instanceOf .cCategorical then
      if type1.instanceOf .cString || type2.instanceOf .cString then .ok .StringType
      else if type1.instanceOf .cBoolean && type2.instanceOf .cBoolean then .ok .BooleanType
      else .ok .CategoricalType
    else
      match type1, type2 with
      | .ListType inner1, .ListType inner2 =>
          (promoteFuel n inner1 inner2).map .ListType
      | .StructType f1, .StructType f2 =>
          let keys := dedupKeys (f1.map Prod.fst ++ f2.map Prod.fst)
          (keys.mapM (fun k =>
            (promoteFuel n (getFieldD f1 k .NestedNullType)
                          (getFieldD f2 k .NestedNullType)).map (fun t => (k, t)))).map
            .StructType
      | .BinaryType, .BinaryType => .ok .BinaryType
      | t1, t2 =>
          .error (.dataTypeError
            ("Cannot promote types: " ++ t1.pyRepr ++ " and " ++ t2.pyRepr))

/-- `TypeCast.promote_types(type1, type2)`.  Every recursive call strictly
decreases the sum of the two arguments' depths (a recursive argument is
either a nested payload of one side, one level shallower, or the depth-1
`NestedNullType()` default, which the null rule stops on without further
recursion), so `depth type1 + depth type2` layers of fuel suffice. -/
def promote_types (type1 type2 : DataType) : Except Err DataType :=
  promoteFuel (type1.depth + type2.depth) type1 type2

end TypeCast

/-- The Python runtime values the engine operates on.  Floats and Decimals
carry a NaN flag and an exact rational magnitude: the engine only branches
on NaN-ness (`data != data`), and numeric conversions are modelled exactly
on the rational (infinities are outside the model; no claim involves them).
`date`/`datetime`/`time` carry calendar fields; `timedelta` its total number
of seconds (Python normalizes `timedelta` internally; total seconds
determine it for the whole-second values the engine constructs).  `dict` is
an insertion-ordered association list, as Python dicts are. -/
inductive PyValue where
  | none
  | bool (b : Bool)
  | int (n : Int)
  | float (isnan : Bool) (val : Rat)
  | decimal (isnan : Bool) (val : Rat)
  | str (s : String)
  | date (y m d : Nat)
  | datetime (y mo d h mi s : Nat)
  | time (h mi s : Nat)
  | timedelta (seconds : Int)
  | list (items : List PyValue)
  | dict (entries : List (String × PyValue))

namespace PyValue

mutual

/-- Nesting depth of a value (1 for scalars); sizes the fuel of the
recursive functions over values. -/
def depth : PyValue → Nat
  | .list xs => listDepth xs + 1
  | .dict kvs => entriesDepth kvs + 1
  | _ => 1

/-- Largest `depth` in a list of values. -/
def listDepth : List PyValue → Nat
  | [] => 0
  | x :: xs => max x.depth (listDepth xs)

/-- Largest `depth` among the values of a dict. -/
def entriesDepth : List (String × PyValue) → Nat
  | [] => 0
  | (_, v) :: rest => max v.depth (entriesDepth rest)

end

/-- Python truthiness (`bool(v)`): None, False, zero, NaN-free zero floats,
empty strings and empty containers are falsy; NaN is truthy; dates, times
and datetimes are always truthy; a timedelta is truthy iff non-zero. -/
def pyTruthy : PyValue → Bool
  | .none => false
  | .bool b => b
  | .int n => n ≠ 0
  | .float isnan v => isnan || v ≠ 0
  | .decimal isnan v => isnan || v ≠ 0
  | .str s => s ≠ ""
  | .date _ _ _ => true
  | .datetime _ _ _ _ _ _ => true
  | .time _ _ _ => true
  | .timedelta secs => secs ≠ 0
  | .list xs => !xs.isEmpty
  | .dict kvs => !kvs.isEmpty

/-- `entries.get(key, None)` on a dict's association list (Python dict keys
are unique; lookup takes the first match). -/
def dictGetD (entries : List (String × PyValue)) (k : String) : PyValue :=
  (List.lookup k entries).getD .none

end PyValue

/-- Python string helpers are modelled on the character list of the string
(a Python `str` is a sequence of code points).  Whitespace and case mapping
follow the ASCII rules; the engine's inputs in the settled claims are
ASCII. -/
def pyStripChars (l : List Char) : List Char :=
  ((l.dropWhile Char.isWhitespace).reverse.dropWhile Char.isWhitespace).reverse

/-- Python `s.strip()`. -/
def pyStrip (s : String) : String := String.mk (pyStripChars s.data)

/-- Python `s.lower()` (ASCII case mapping). -/
def pyLower (s : String) : String := String.mk (s.data.map Char.toLower)

/-- Splits a character list on a separator character, keeping empty
pieces. -/
def pySplitCharAux (sep : Char) (acc : List Char) : List Char → List (List Char)
  | [] => [acc.reverse]
  | c :: rest =>
      if c = sep then acc.reverse :: pySplitCharAux sep [] rest
      else pySplitCharAux sep (c :: acc) rest

/-- Python `s.split(sep)` for a one-character separator (adjacent and
edge separators contribute empty pieces, as in Python). -/
def pySplit (sep : Char) (s : String) : List String :=
  (pySplitCharAux sep [] s.data).map String.mk

/-- The apostrophe character, kept out of string literals. -/
def sqChar : Char := Char.ofNat 39

/-- Escapes one character for Python `repr` of a string delimited by
`quote` (backslash, the delimiter, newline, carriage return and tab; the
`\xNN` escapes of other non-printable characters are outside the model —
no claim involves them). -/
def pyReprEscChar (quote : Char) (c : Char) : String :=
  if c = '\\' then "\\\\"
  else if c = quote then "\\" ++ String.singleton quote
  else if c = '\n' then "\\n"
  else if c = '\r' then "\\r"
  else if c = '\t' then "\\t"
  else String.singleton c

/-- Python `repr` of a string: single-quoted, except double-quoted when the
string contains a single quote and no double quote. -/
def pyReprStr (s : String) : String :=
  if s.data.contains sqChar && !s.data.contains '"' then
    "\"" ++ String.join (s.data.map (pyReprEscChar '"')) ++ "\""
  else
    String.singleton sqChar ++ String.join (s.data.map (pyReprEscChar sqChar))
      ++ String.singleton sqChar

/-- Tail of a run of digits in which single underscores may separate digits
(the grammar of Python numeric literals accepted by `int()`); returns the
digits with underscores removed. -/
def intDigitsTail : List Char → Option (List Char)
  | [] => some []
  | c :: rest =>
      if c.isDigit then (intDigitsTail rest).map (c :: ·)
      else if c = '_' then
        match rest with
        | c2 :: rest2 =>
            if c2.isDigit then (intDigitsTail rest2).map (c2 :: ·) else Option.none
        | [] => Option.none
      else Option.none

/-- A non-empty run of digits with optional single separating underscores. -/
def parseIntDigits : List Char → Option (List Char)
  | c :: rest => if c.isDigit then (intDigitsTail rest).map (c :: ·) else Option.none
  | [] => Option.none

/-- Numeric value of a digit list. -/
def digitsToNat (l : List Char) : Nat :=
  l.foldl (fun acc c => acc * 10 + (c.toNat - '0'.toNat)) 0

/-- Python `int(s)` for a string: optional surrounding whitespace, optional
sign, base-10 digits (with optional single separating underscores). -/
def pyIntOfString (s : String) : Option Int :=
  match pyStripChars s.data with
  | '+' :: rest => (parseIntDigits rest).map (fun ds => (digitsToNat ds : Int))
  | '-' :: rest => (parseIntDigits rest).map (fun ds => -(digitsToNat ds : Int))
  | rest => (parseIntDigits rest).map (fun ds => (digitsToNat ds : Int))

/-- Result of parsing a numeric string: a finite rational, a NaN, or an
infinity.  Infinite magnitudes have no `PyValue` representation in this
model (no claim involves them); NaN-ness and finite values are exact. -/
inductive NumParse where
  | finite (q : Rat)
  | nan
  | infinite
  deriving DecidableEq

/-- Exponent suffix of a numeric literal: empty, or `e`/`E`, optional sign,
digits. -/
def parseExpSuffix : List Char → Option Int
  | [] => some 0
  | c :: rest =>
      if c = 'e' || c = 'E' then
        match rest with
        | '+' :: rest2 => (parseIntDigits rest2).map (fun ds => (digitsToNat ds : Int))
        | '-' :: rest2 => (parseIntDigits rest2).map (fun ds => -(digitsToNat ds : Int))
        | rest2 => (parseIntDigits rest2).map (fun ds => (digitsToNat ds : Int))
      else Option.none

/-- Value of an unsigned decimal numeric literal `intpart [. fracpart]
[exponent]` requiring at least one digit in `intpart ++ fracpart`. -/
def parseUnsignedNumeric (l : List Char) : Option Rat :=
  let (ip, rest) := l.span Char.isDigit
  let (fp, rest2) :=
    match rest with
    | '.' :: r => r.span Char.isDigit
    | _ => ([], rest)
  if ip.isEmpty && fp.isEmpty then Option.none
  else
    (parseExpSuffix rest2).map (fun e =>
      ((digitsToNat (ip ++ fp) : Rat) / (10 : Rat) ^ fp.length) * (10 : Rat) ^ e)

/-- The unsigned body of a `Decimal` numeric string: a numeric literal, or
(case-insensitively) `NaN`/`sNaN` with an optional digit payload, or
`Inf`/`Infinity` (`decimal` module grammar).  `None` means the string does
not parse. -/
def parseDecimalBody (l : List Char) : Option NumParse :=
  let low := l.map Char.toLower
  match low with
  | 'n' :: 'a' :: 'n' :: payload =>
      if payload.all Char.isDigit then some .nan else Option.none
  | 's' :: 'n' :: 'a' :: 'n' :: payload =>
      if payload.all Char.isDigit then some .nan else Option.none
  | 'i' :: 'n' :: 'f' :: [] => some .infinite
  | 'i' :: 'n' :: 'f' :: 'i' :: 'n' :: 'i' :: 't' :: 'y' :: [] => some .infinite
  | _ => (parseUnsignedNumeric l).map .finite

/-- Negation on a parse result (`-NaN` stays NaN, `-Inf` stays infinite in
this sign-less model of specials). -/
def NumParse.neg : NumParse → NumParse
  | .finite q => .finite (-q)
  | .nan => .nan
  | .infinite => .infinite

/-- `Decimal(s)` for a string: the `decimal` module strips surrounding
whitespace, removes all underscores, then matches optional sign followed by
a numeric literal or a special (`NaN`, `sNaN`, `Inf`, `Infinity`). -/
def pyDecimalOfString (s : String) : Option NumParse :=
  let l := (pyStripChars s.data).filter (fun c => c ≠ '_')
  match l with
  | '+' :: rest => parseDecimalBody rest
  | '-' :: rest => (parseDecimalBody rest).map NumParse.neg
  | rest => parseDecimalBody rest

/-- `float(s)` for a string: like the `Decimal` grammar, but the specials
are exactly `nan`, `inf` and `infinity` (no digit payload), case-insensitive
(underscore removal is stricter in CPython — between digits only — and the
simplification is harmless for every claim input). -/
def pyFloatOfString (s : String) : Option NumParse :=
  let l := (pyStripChars s.data).filter (fun c => c ≠ '_')
  let body : List Char → Option NumParse := fun b =>
    let low := b.map Char.toLower
    match low with
    | 'n' :: 'a' :: 'n' :: [] => some .nan
    | 'i' :: 'n' :: 'f' :: [] => some .infinite
    | 'i' :: 'n' :: 'f' :: 'i' :: 'n' :: 'i' :: 't' :: 'y' :: [] => some .infinite
    | _ => (parseUnsignedNumeric b).map .finite
  match l with
  | '+' :: rest => body rest
  | '-' :: rest => (body rest).map NumParse.neg
  | rest => body rest

/-- Greedily takes at most `maxN` leading digits. -/
def takeDigitsUpTo : Nat → List Char → (List Char × List Char)
  | 0, l => ([], l)
  | _ + 1, [] => ([], [])
  | n + 1, c :: rest =>
      if c.isDigit then
        let (ds, r) := takeDigitsUpTo n rest
        (c :: ds, r)
      else ([], c :: rest)

/-- A 1-to-`maxN`-digit numeric field of a `strptime` format.  CPython
compiles such fields to greedy 1-2/1-4-digit regex groups; since every
field here is followed by a non-digit literal or the end of the string,
regex backtracking can never turn a rejection into an acceptance, so the
deterministic greedy parse agrees with `strptime`. -/
def parseNumField (maxN : Nat) (l : List Char) : Option (Nat × List Char) :=
  let (ds, r) := takeDigitsUpTo maxN l
  if ds.isEmpty then Option.none else some (digitsToNat ds, r)

/-- Expects one literal character. -/
def expectChar (c : Char) : List Char → Option (List Char)
  | c2 :: rest => if c2 = c then some rest else Option.none
  | [] => Option.none

/-- Gregorian leap year. -/
def isLeapYear (y : Nat) : Bool :=
  y % 4 = 0 && (y % 100 ≠ 0 || y % 400 = 0)

/-- Number of days in a month. -/
def daysInMonth (y m : Nat) : Nat :=
  if m = 2 then (if isLeapYear y then 29 else 28)
  else if m = 4 || m = 6 || m = 9 || m = 11 then 30
  else 31

/-- `%Y-%m-%d` prefix: year, month and day fields with the range checks the
`datetime` constructor applies (`strptime` builds a `datetime`, which
rejects year 0, months outside 1..12 and days outside the month). -/
def parseDateChars (l : List Char) : Option ((Nat × Nat × Nat) × List Char) := do
  let (y, r1) ← parseNumField 4 l
  let r2 ← expectChar '-' r1
  let (m, r3) ← parseNumField 2 r2
  let r4 ← expectChar '-' r3
  let (d, r5) ← parseNumField 2 r4
  if 1 ≤ y && 1 ≤ m && m ≤ 12 && 1 ≤ d && d ≤ daysInMonth y m then
    some ((y, m, d), r5)
  else Option.none

/-- `%H:%M:%S` prefix with the `datetime` range checks (hours 0..23,
minutes and seconds 0..59). -/
def parseTimeChars (l : List Char) : Option ((Nat × Nat × Nat) × List Char) := do
  let (h, r1) ← parseNumField 2 l
  let r2 ← expectChar ':' r1
  let (mi, r3) ← parseNumField 2 r2
  let r4 ← expectChar ':' r3
  let (sec, r5) ← parseNumField 2 r4
  if h ≤ 23 && mi ≤ 59 && sec ≤ 59 then some ((h, mi, sec), r5)
  else Option.none

/-- `datetime.strptime(s, "%Y-%m-%d")` (full-string match). -/
def strptimeDate (s : String) : Option (Nat × Nat × Nat) :=
  match parseDateChars s.data with
  | some (ymd, []) => some ymd
  | _ => Option.none

/-- `datetime.strptime(s, "%Y-%m-%d %H:%M:%S")` (full-string match). -/
def strptimeDatetime (s : String) :
    Option (Nat × Nat × Nat × Nat × Nat × Nat) := do
  let (ymd, r1) ← parseDateChars s.data
  let r2 ← expectChar ' ' r1
  match parseTimeChars r2 with
  | some ((h, mi, sec), []) => some (ymd.1, ymd.2.1, ymd.2.2, h, mi, sec)
  | _ => Option.none

namespace SchemaHelper

/-- `SchemaHelper.is_integer` (`core/DataTypes/Schema.py`):
`value.isdigit()` — non-empty and all digits (ASCII model of `isdigit`). -/
def is_integer (s : String) : Bool :=
  !s.data.isEmpty && s.data.all Char.isDigit

/-- `SchemaHelper.is_decimal`: whether `Decimal(value)` succeeds (only
`InvalidOperation` is caught, which is exactly the parse-failure case for a
string argument). -/
def is_decimal (s : String) : Bool :=
  (pyDecimalOfString s).isSome

/-- `SchemaHelper.is_datetime`: whether `datetime.strptime` succeeds with
`"%Y-%m-%d %H:%M:%S"` or `"%Y-%m-%d"`. -/
def is_datetime (s : String) : Bool :=
  (strptimeDatetime s).isSome || (strptimeDate s).isSome

end SchemaHelper

/-- Largest `depth` in a list of types. -/
def typesMaxDepth (ts : List DataType) : Nat :=
  ts.foldl (fun a t => max a t.depth) 0

/-- `SchemaInference._unify_types` (`core/DataTypes/Schema.py`), recursion-
depth-indexed.  Steps in source order: deduplicate with `list(set(types))`
(class-based equality, see `pyDedup`); a single distinct type is returned
as is; Null variants are discarded and a single survivor returned;
all-`ListType` inputs unify the non-`NestedNullType` inner types (for an
empty input list this branch fires vacuously and yields
`ListType(NestedNullType())`); all-`StructType` inputs union the field
names and unify each field's observed types; anything else falls back to
`StringType()`.  After class-deduplication at most one `ListType` and one
`StructType` survive, so the two recursive branches can only fire with
zero or one element and never actually recurse; they are modelled exactly
as written nonetheless. -/
def unifyFuel : Nat → List DataType → DataType
  | 0, _ => .StringType
  | n + 1, types =>
    let unique_types := pyDedup types
    if unique_types.length == 1 then unique_types.headD .StringType
    else
      let non_null_types := unique_types.filter (fun t => !t.isNullVariant)
      if non_null_types.length == 1 then non_null_types.headD .StringType
      else if unique_types.all (fun t => t.instanceOf .cList) then
        let inner_types := unique_types.filterMap (fun t =>
          match t with
          | .ListType inner =>
              if inner.instanceOf .cNestedNull then Option.none else some inner
          | _ => Option.none)
        .ListType (if inner_types.isEmpty then .NestedNullType else unifyFuel n inner_types)
      else if unique_types.all (fun t => t.instanceOf .cStruct) then
        let all_fields := unique_types.filterMap (fun t =>
          match t with | .StructType f => some f | _ => Option.none)
        let field_keys := dedupKeys ((all_fields.map (fun f => f.map Prod.fst)).flatten)
        .StructType (field_keys.map (fun k =>
          (k, unifyFuel n (all_fields.filterMap (fun f => List.lookup k f)))))
      else .StringType

namespace SchemaInference

/-- `SchemaInference._unify_types(types)`.  Each (dead) recursive call
strips one nesting level, so `typesMaxDepth types` layers of fuel
suffice. -/
def _unify_types (types : List DataType) : DataType :=
  unifyFuel (typesMaxDepth types + 1) types

end SchemaInference

/-- `SchemaInference.infer_type` (`core/DataTypes/Schema.py`), recursion-
depth-indexed.  Source branch order: `None`; `bool`; `int`; `float` (NaN,
detected with `data != data`, gives the numeric Null); `Decimal`; `str`
(integer parse, then decimal parse, then datetime match, then String);
`date` (and not `datetime`); `datetime`; `list` (inferred element types
unified); `dict` (fields inferred pointwise); anything else —
`datetime.time` and `timedelta` values included — raises `DataTypeError`. -/
def inferTypeFuel : Nat → PyValue → Except Err DataType
  | 0, _ => .error (.dataTypeError "recursion limit exceeded")
  | n + 1, data =>
    match data with
    | .none => .ok .NestedNullType
    | .bool _ => .ok .BooleanType
    | .int _ => .ok .IntegerType
    | .float isnan _ => .ok (if isnan then .NumericNullType else .FloatType)
    | .decimal _ _ => .ok .DecimalType
    | .str s => .ok
        (if SchemaHelper.is_integer s then .IntegerType
         else if SchemaHelper.is_decimal s then .DecimalType
         else if SchemaHelper.is_datetime s then .DatetimeType
         else .StringType)
    | .date _ _ _ => .ok .DateType
    | .datetime _ _ _ _ _ _ => .ok .DatetimeType
    | .list els =>
        (els.mapM (inferTypeFuel n)).map
          (fun ets => .ListType (SchemaInference._unify_types ets))
    | .dict kvs =>
        (kvs.mapM (fun kv => (inferTypeFuel n kv.2).map (fun t => (kv.1, t)))).map
          .StructType
    | .time _ _ _ => .error (.dataTypeError "Unsupported data type")
    | .timedelta _ => .error (.dataTypeError "Unsupported data type")

namespace SchemaInference

/-- `SchemaInference.infer_type(data)` (`depth data` layers of fuel reach
every nested element). -/
def infer_type (data : PyValue) : Except Err DataType :=
  inferTypeFuel data.depth data

end SchemaInference

/-- `SchemaInference.infer_schema` (`core/DataTypes/Schema.py`), recursion-
depth-indexed: an empty list infers `ListType(NestedNullType())`; a
non-empty list unifies its elements' schemas; an empty dict infers
`StructType({})`; a non-empty dict infers fields pointwise; anything else
delegates to `SchemaInference.infer_type`. -/
def inferSchemaFuel : Nat → PyValue → Except Err DataType
  | 0, _ => .error (.dataTypeError "recursion limit exceeded")
  | n + 1, data =>
    match data with
    | .list [] => .ok (.ListType .NestedNullType)
    | .list els =>
        (els.mapM (inferSchemaFuel n)).map
          (fun es => .ListType (SchemaInference._unify_types es))
    | .dict [] => .ok (.StructType [])
    | .dict kvs =>
        (kvs.mapM (fun kv => (inferSchemaFuel n kv.2).map (fun t => (kv.1, t)))).map
          .StructType
    | v => SchemaInference.infer_type v

namespace SchemaInference

/-- `SchemaInference.infer_schema(data)`. -/
def infer_schema (data : PyValue) : Except Err DataType :=
  inferSchemaFuel data.depth data

end SchemaInference

/-- Zero-padded two-digit rendering. -/
def pad2 (n : Nat) : String :=
  if n < 10 then "0" ++ toString n else toString n

/-- Zero-padded four-digit rendering. -/
def pad4 (n : Nat) : String :=
  if n < 10 then "000" ++ toString n
  else if n < 100 then "00" ++ toString n
  else if n < 1000 then "0" ++ toString n
  else toString n

/-- Decimal rendering of the model's exact rationals, standing in for
CPython's shortest-round-trip float rendering (no settled claim depends on
a float's string form). -/
def ratStr (q : Rat) : String :=
  if q.den = 1 then toString q.num ++ ".0"
  else toString q.num ++ "/" ++ toString q.den

/-- Python `str(timedelta(seconds=secs))` for non-negative whole-second
values, `H:MM:SS`; the day-carrying rendering of other values is
approximated (no settled claim depends on it). -/
def timedeltaStr (secs : Int) : String :=
  let s := secs.toNat
  toString (s / 3600) ++ ":" ++ pad2 ((s / 60) % 60) ++ ":" ++ pad2 (s % 60)

/-- Python `str(v)`, recursion-depth-indexed.  Scalars follow CPython
(`None`, `True`/`False`, decimal integers, ISO dates and times); container
rendering shows nested strings through `repr` as CPython does, with the
float/decimal caveat of `ratStr`. -/
def pyStrFuel : Nat → PyValue → String
  | _, .none => "None"
  | _, .bool b => if b then "True" else "False"
  | _, .int n => toString n
  | _, .float isnan v => if isnan then "nan" else ratStr v
  | _, .decimal isnan v => if isnan then "NaN" else ratStr v
  | _, .str s => s
  | _, .date y m d => pad4 y ++ "-" ++ pad2 m ++ "-" ++ pad2 d
  | _, .datetime y mo d h mi s =>
      pad4 y ++ "-" ++ pad2 mo ++ "-" ++ pad2 d ++ " "
        ++ pad2 h ++ ":" ++ pad2 mi ++ ":" ++ pad2 s
  | _, .time h mi s => pad2 h ++ ":" ++ pad2 mi ++ ":" ++ pad2 s
  | _, .timedelta secs => timedeltaStr secs
  | 0, .list _ => ""
  | 0, .dict _ => ""
  | n + 1, .list xs =>
      "[" ++ String.intercalate ", "
        (xs.map (fun x =>
          match x with
          | .str s => pyReprStr s
          | x => pyStrFuel n x)) ++ "]"
  | n + 1, .dict kvs =>
      "\x7b" ++ String.intercalate ", "
        (kvs.map (fun kv =>
          pyReprStr kv.1 ++ ": " ++
          (match kv.2 with
           | .str s => pyReprStr s
           | v => pyStrFuel n v))) ++ "\x7d"

/-- Python `str(v)`. -/
def pyStr (v : PyValue) : String := pyStrFuel v.depth v

/-- Truncation toward zero, the rounding of Python `int()` on numerics. -/
def ratTrunc (q : Rat) : Int :=
  if 0 ≤ q then q.floor else q.ceil

/-- Python `int(value)`: booleans and ints exactly; floats and Decimals
truncate toward zero, NaNs raise; strings parse as base-10 integer
literals, otherwise `ValueError` naming the `repr` of the offending string;
anything else raises `TypeError`. -/
def pyInt : PyValue → Except Err Int
  | .bool b => .ok (if b then 1 else 0)
  | .int n => .ok n
  | .float isnan v =>
      if isnan then .error (.valueError "cannot convert float NaN to integer")
      else .ok (ratTrunc v)
  | .decimal isnan v =>
      if isnan then .error (.invalidOperation "invalid operation")
      else .ok (ratTrunc v)
  | .str s =>
      match pyIntOfString s with
      | some n => .ok n
      | Option.none =>
          .error (.valueError ("invalid literal for int() with base 10: " ++ pyReprStr s))
  | _ => .error (.typeError "int() argument must be a string, a bytes-like object or a real number")

/-- Python `float(value)` (NaN flag and exact rational). -/
def pyFloat : PyValue → Except Err (Bool × Rat)
  | .bool b => .ok (false, if b then 1 else 0)
  | .int n => .ok (false, (n : Rat))
  | .float f v => .ok (f, v)
  | .decimal f v => .ok (f, v)
  | .str s =>
      match pyFloatOfString s with
      | some (.finite q) => .ok (false, q)
      | some .nan => .ok (true, 0)
      | some .infinite => .error (.dataTypeError "infinite float values are outside this model")
      | Option.none =>
          .error (.valueError ("could not convert string to float: " ++ pyReprStr s))
  | _ => .error (.typeError "float() argument must be a string or a real number")

/-- Python `Decimal(value)` (NaN flag and exact rational; a bool is an int
in Python; `Decimal` of the model's floats is exact because the model's
floats already are). -/
def pyDecimal : PyValue → Except Err (Bool × Rat)
  | .bool b => .ok (false, if b then 1 else 0)
  | .int n => .ok (false, (n : Rat))
  | .float f v => .ok (f, v)
  | .decimal f v => .ok (f, v)
  | .str s =>
      match pyDecimalOfString s with
      | some (.finite q) => .ok (false, q)
      | some .nan => .ok (true, 0)
      | some .infinite => .error (.dataTypeError "infinite Decimal values are outside this model")
      | Option.none => .error (.invalidOperation "invalid decimal literal")
  | _ => .error (.typeError "conversion to Decimal is not supported")

/-- `TypeCast.cast_value` (`core/DataTypes/Cast.py`), recursion-depth-
indexed.  A `None` value casts to `None` for numeric, temporal,
categorical, `ListType` and `StructType` targets and raises
`ConversionError` for anything else (the Null types included).  Then, by
target: Integer/Float/Decimal via the Python constructors (their built-in
exceptions propagate uncaught — the module defines no `CastError`);
Boolean maps the case-insensitive strings `true`/`1` and `false`/`0` and
otherwise falls back to truthiness; String via `str`; Date parses
`%Y-%m-%d`; Datetime parses `%Y-%m-%d %H:%M:%S` (no date-only fallback
here); List casts element-wise (non-list values raise `ConversionError`);
Struct casts field-by-field over the *target's* fields, reading absent
input keys as `None`; every other target — `TimeType`, `DurationType`,
`BinaryType` and the Null types included — raises
`ConversionError("Unsupported target type: ...")`. -/
def castValueFuel : Nat → PyValue → DataType → Except Err PyValue
  | 0, _, _ => .error (.dataTypeError "recursion limit exceeded")
  | n + 1, value, target_type =>
    match value with
    | .none =>
        if target_type.instanceOf .cNumeric || target_type.instanceOf .cTemporal ||
           target_type.instanceOf .cCategorical || target_type.instanceOf .cList ||
           target_type.instanceOf .cStruct then
          .ok .none
        else
          .error (.conversionError ("Cannot cast None to " ++ target_type.pyRepr))
    | value =>
      match target_type with
      | .IntegerType => (pyInt value).map .int
      | .FloatType => (pyFloat value).map (fun fv => .float fv.1 fv.2)
      | .DecimalType => (pyDecimal value).map (fun fv => .decimal fv.1 fv.2)
      | .BooleanType =>
          match value with
          | .str s =>
              if pyLower s = "true" || pyLower s = "1" then .ok (.bool true)
              else if pyLower s = "false" || pyLower s = "0" then .ok (.bool false)
              else .ok (.bool (PyValue.pyTruthy (.str s)))
          | v => .ok (.bool v.pyTruthy)
      | .StringType => .ok (.str (pyStr value))
      | .DateType =>
          match value with
          | .str s =>
              match strptimeDate s with
              | some (y, m, d) => .ok (.date y m d)
              | Option.none =>
                  .error (.valueError ("time data " ++ pyReprStr s
                    ++ " does not match format"))
          | _ => .error (.typeError "strptime() argument 1 must be str")
      | .DatetimeType =>
          match value with
          | .str s =>
              match strptimeDatetime s with
              | some (y, mo, d, h, mi, sec) => .ok (.datetime y mo d h mi sec)
              | Option.none =>
                  .error (.valueError ("time data " ++ pyReprStr s
                    ++ " does not match format"))
          | _ => .error (.typeError "strptime() argument 1 must be str")
      | .ListType inner =>
          match value with
          | .list items =>
              (items.mapM (fun it => castValueFuel n it inner)).map .list
          | v => .error (.conversionError ("Cannot cast " ++ pyStr v ++ " to ListType"))
      | .StructType fields =>
          match value with
          | .dict entries =>
              (fields.mapM (fun kft =>
                (castValueFuel n (PyValue.dictGetD entries kft.1) kft.2).map
                  (fun cv => (kft.1, cv)))).map .dict
          | v => .error (.conversionError ("Cannot cast " ++ pyStr v ++ " to StructType"))
      | t => .error (.conversionError ("Unsupported target type: " ++ t.pyRepr))

namespace TypeCast

/-- `TypeCast.cast_value(value, target_type)`.  The recursion strips one
nesting level from the target per step, so `depth target_type` layers of
fuel suffice. -/
def cast_value (value : PyValue) (target_type : DataType) : Except Err PyValue :=
  castValueFuel target_type.depth value target_type

end TypeCast

/-- `DurationType.cast` (`core/DataTypes/Temporal.py`): a `timedelta`
passes through; a string is split on `:` and unpacked as
`hours, minutes, seconds = map(int, value.split(":"))` — wrong arity or a
non-integer part raises `ValueError`, which the method catches and
re-raises as `TypeError` — and yields
`timedelta(hours=h, minutes=m, seconds=s)` (total seconds); any other
value raises `TypeError`. -/
def DurationType.cast (value : PyValue) : Except Err PyValue :=
  match value with
  | .timedelta s => .ok (.timedelta s)
  | .str s =>
      match pySplit ':' s with
      | [a, b, c] =>
          match pyIntOfString a, pyIntOfString b, pyIntOfString c with
          | some h, some m, some sec => .ok (.timedelta (h * 3600 + m * 60 + sec))
          | _, _, _ => .error (.typeError ("Cannot cast " ++ s ++ " to DurationType"))
      | _ => .error (.typeError ("Cannot cast " ++ s ++ " to DurationType"))
  | v => .error (.typeError ("Cannot cast " ++ pyStr v ++ " to DurationType"))

namespace Normalization

/-- `Normalization.normalize_hostname` (`core/utility/Normalize.py`): strip
surrounding whitespace, lower-case, then reject when the result is empty,
longer than 255 characters, or has a dot-separated label longer than 63
characters; otherwise return it.  (The function performs no trailing-dot
check: a trailing dot merely contributes an empty final label.) -/
def normalize_hostname (hostname : String) : Except Err String :=
  let h := pyLower (pyStrip hostname)
  if h = "" || 255 < h.length
      || (pySplit '.' h).any (fun label => 63 < label.length) then
    .error (.normalizationError ("Invalid hostname: " ++ h))
  else
    .ok h

/-- `Normalization.normalize_json` (`core/utility/Normalize.py`): dicts and
lists pass through; strings are parsed with `json.loads` — the JSON text
parser itself is outside this model (no settled claim reaches
`normalize_json` with a string); anything else raises
`NormalizationError`. -/
def normalize_json (data : PyValue) : Except Err PyValue :=
  match data with
  | .dict kvs => .ok (.dict kvs)
  | .list xs => .ok (.list xs)
  | .str _ => .error (.normalizationError "JSON string inputs are outside this model")
  | _ => .error (.normalizationError "Expected a dict, list, or JSON string")

end Normalization

/-- An `xml.etree.ElementTree` element: tag, optional text, child elements
(in document order).  `ET.Element`/`ET.SubElement` create elements with no
text (`None`); assigning `child.text = ""` stores the empty string.  The
XML adapter is modelled at this tree level; `ET.tostring`/`ET.fromstring`
translate between these trees and XML text. -/
structure XElem where
  tag : String
  text : Option String
  children : List XElem

namespace XElem

mutual

/-- Nesting depth of an element (leaves have depth 1). -/
def depth : XElem → Nat
  | ⟨_, _, cs⟩ => childrenDepth cs + 1

/-- Largest `depth` among a list of elements. -/
def childrenDepth : List XElem → Nat
  | [] => 0
  | c :: rest => max c.depth (childrenDepth rest)

end

end XElem

/-- `value or {}` followed by `.items()` in `build_element`: a dict yields
its items, a falsy value yields no items, and a truthy non-dict raises
`AttributeError` (unreachable in `to_xml`, where the schema is inferred
from the value itself). -/
def orEmptyDictItems (v : PyValue) : Except Err (List (String × PyValue)) :=
  match v with
  | .dict kvs => .ok kvs
  | v =>
      if v.pyTruthy then .error (.attributeError "object has no attribute items")
      else .ok []

/-- `value or []` iterated in `build_element`: a list yields its items, a
falsy value yields none; iterating a truthy non-list (Python would iterate
a string's characters or a dict's keys) is outside the model and
unreachable in `to_xml`, where the schema is inferred from the value. -/
def orEmptyListItems (v : PyValue) : Except Err (List PyValue) :=
  match v with
  | .list xs => .ok xs
  | v =>
      if v.pyTruthy then .error (.typeError "iterating a non-list value is outside this model")
      else .ok []

/-- `'{key}'`: a key wrapped in single quotes, as in the adapter's error
messages. -/
def squoted (key : String) : String :=
  String.singleton sqChar ++ key ++ String.singleton sqChar

namespace XMLAdapter

/-- `XMLAdapter.normalize_input` (`core/io/XML.py`): normalize to JSON-like
form; a dict passes through; a one-element list holding a dict unwraps to
that dict; any other list is wrapped under a `"root"` key; a
`NormalizationError` from the body is re-raised as `ConversionError`. -/
def normalize_input (data : PyValue) : Except Err PyValue :=
  let body : Except Err PyValue := do
    let d ← Normalization.normalize_json data
    match d with
    | .dict kvs => .ok (.dict kvs)
    | .list xs =>
        match xs with
        | [.dict kv1] => .ok (.dict kv1)
        | _ => .ok (.dict [("root", .list xs)])
    | _ => .error (.normalizationError "Expected a dictionary or list for normalization.")
  match body with
  | .error (.normalizationError m) =>
      .error (.conversionError ("Error normalizing input JSON: " ++ m))
  | r => r

/-- The inner `build_element` of `XMLAdapter.to_xml` (`core/io/XML.py`),
recursion-depth-indexed.  It appends a child element named `key` to its
parent and fills it: for a `StructType` schema, by recursing into the items
of `value or \x7b\x7d` with each field's sub-schema (missing fields default
to `NestedNullType()`); for a `ListType` schema, by wrapping every item of
`value or []` in an `item` element and recursing under it with tag `item`
again, against the inner schema when that is a `StructType` and against
`NestedNullType()` otherwise (which is what renders scalar list items as an
empty nested `item` element); for `NestedNullType`, by setting empty text;
otherwise by setting `str(value)` as text.  Any exception from the body is
re-raised as `ConversionError` naming the key, so nested failures are
wrapped once per level. -/
def buildElementFuel : Nat → String → PyValue → DataType → Except Err XElem
  | 0, _, _, _ => .error (.dataTypeError "recursion limit exceeded")
  | n + 1, key, value, schema =>
    let body : Except Err XElem :=
      match schema with
      | .StructType fields => do
          let items ← orEmptyDictItems value
          let children ← items.mapM (fun kv =>
            buildElementFuel n kv.1 kv.2 (getFieldD fields kv.1 .NestedNullType))
          .ok ⟨key, Option.none, children⟩
      | .ListType inner => do
          let items ← orEmptyListItems value
          let children ← items.mapM (fun item => do
            let item_schema :=
              match inner with
              | .StructType f => DataType.StructType f
              | _ => DataType.NestedNullType
            let built ← buildElementFuel n "item" item item_schema
            .ok (XElem.mk "item" Option.none [built]))
          .ok ⟨key, Option.none, children⟩
      | .NestedNullType => .ok ⟨key, some "", []⟩
      | _ => .ok ⟨key, some (pyStr value), []⟩
    match body with
    | .error e =>
        .error (.conversionError ("Error building XML element for key "
          ++ squoted key ++ ": " ++ e.message))
    | r => r

/-- `build_element(parent, key, value, schema)`, as the element it appends
to `parent`.  The recursion strips one nesting level from the schema per
step or passes the terminal `NestedNullType()`, so `depth schema + 1`
layers of fuel suffice. -/
def build_element (key : String) (value : PyValue) (schema : DataType) :
    Except Err XElem :=
  buildElementFuel (schema.depth + 1) key value schema

/-- `XMLAdapter.to_xml` (`core/io/XML.py`), modelled to the element tree
that `ET.tostring` would serialize.  Normalizes the input, infers its
schema, takes the first key of the normalized dict as the root tag (an
empty dict makes `next(...)` raise `StopIteration`, which the catch-all
turns into `ConversionError`), rejects a `NestedNullType` root schema, and
builds the children: for a `ListType` root schema each item becomes an
`item` element filled field-by-field; for a `StructType` root schema each
entry of the root value becomes a child element; any other root schema is
unsupported.  Every failure is wrapped once more as
`ConversionError("Error converting data to XML: ...")`. -/
def to_xml (data : PyValue) : Except Err XElem :=
  let body : Except Err XElem := do
    let normalized_data ← normalize_input data
    let schema ← SchemaInference.infer_schema normalized_data
    match normalized_data with
    | .dict [] => .error (.stopIteration "")
    | _ =>
      let rk_rv : String × PyValue :=
        match normalized_data with
        | .dict ((k, v) :: _) => (k, v)
        | x => ("root", x)
      let root_key := rk_rv.1
      let root_value := rk_rv.2
      let root_schema :=
        match schema with
        | .StructType fs => getFieldD fs root_key .NestedNullType
        | s => s
      if root_schema.instanceOf .cNestedNull then
        .error (.conversionError "Root schema cannot be inferred correctly")
      else
        match root_schema with
        | .ListType inner => do
            let items ← orEmptyListItems root_value
            let children ← items.mapM (fun item => do
              let item_schema :=
                match inner with
                | .StructType f => DataType.StructType f
                | _ => DataType.NestedNullType
              let kvs ← orEmptyDictItems item
              let sub ← kvs.mapM (fun kv =>
                let field_schema :=
                  match item_schema with
                  | .StructType f => getFieldD f kv.1 .NestedNullType
                  | _ => DataType.NestedNullType
                build_element kv.1 kv.2 field_schema)
              .ok (XElem.mk "item" Option.none sub))
            .ok ⟨root_key, Option.none, children⟩
        | .StructType fs =>
            match root_value with
            | .dict kvs => do
                let children ← kvs.mapM (fun kv =>
                  build_element kv.1 kv.2 (getFieldD fs kv.1 .NestedNullType))
                .ok ⟨root_key, Option.none, children⟩
            | _ => .error (.attributeError "object has no attribute items")
        | _ => .error (.conversionError "Unsupported root schema type for XML conversion")
  match body with
  | .error e =>
      .error (.conversionError ("Error converting data to XML: " ++ e.message))
  | r => r

/-- The `result[child.tag]` update of `parse_element`: a first occurrence
is stored as is; a second occurrence turns the stored value into a
two-element list; further occurrences append (the `isinstance(..., list)`
check — a parsed child is never itself a list, so collapsing is the only
way a list appears at a tag). -/
def insertChild (result : List (String × PyValue)) (tag : String)
    (parsed : PyValue) : List (String × PyValue) :=
  if (List.lookup tag result).isSome then
    result.map (fun kv =>
      if kv.1 = tag then
        (kv.1,
          match kv.2 with
          | .list xs => PyValue.list (xs ++ [parsed])
          | v => PyValue.list [v, parsed])
      else kv)
  else result ++ [(tag, parsed)]

/-- The inner `parse_element` of `XMLAdapter.from_xml` (`core/io/XML.py`),
recursion-depth-indexed: a leaf with falsy text (no text, or the empty
string) parses to `None`, a leaf with text to its stripped text; an element
with children parses to a dict from child tag to parsed child, repeated
tags collapsing into a list. -/
def parseElementFuel : Nat → XElem → PyValue
  | 0, _ => .none
  | n + 1, e =>
    match e.children with
    | [] =>
        match e.text with
        | Option.none => .none
        | some t => if t = "" then .none else .str (pyStrip t)
    | children =>
        .dict (children.foldl
          (fun result child => insertChild result child.tag (parseElementFuel n child))
          [])

/-- `parse_element(element)`. -/
def parse_element (e : XElem) : PyValue := parseElementFuel e.depth e

/-- `XMLAdapter.from_xml` (`core/io/XML.py`), taking the already-parsed
element tree (`ET.fromstring` is the text-to-tree step).  The root's
children are each parsed with `parse_element` and collected in a list under
the root's tag; the result is normalized and its schema inferred.  Any
failure is wrapped as `ConversionError("Error converting XML to data:
...")`. -/
def from_xml (root : XElem) : Except Err (PyValue × DataType) :=
  let body : Except Err (PyValue × DataType) := do
    let parsed_data := PyValue.dict
      [(root.tag, .list (root.children.map parse_element))]
    let normalized_data ← normalize_input parsed_data
    let schema ← SchemaInference.infer_schema normalized_data
    .ok (normalized_data, schema)
  match body with
  | .error e =>
      .error (.conversionError ("Error converting XML to data: " ++ e.message))
  | r => r

end XMLAdapter

/-! ### Shared lemmas -/

/-- `Except.map` produces `.ok` exactly from an `.ok` argument. -/
theorem mapExcept_ok {ε α β : Type} (x : Except ε α) (f : α → β) (b : β) :
    x.map f = .ok b ↔ ∃ a, x = .ok a ∧ f a = b := by
  cases x <;> simp [Except.map]

/-- Casting the value `None` can only succeed with result `None` (the
`value is None` branch of `cast_value` runs first and returns `None` or
raises). -/
theorem castValueFuel_none_ok (n : Nat) (t : DataType) (v : PyValue)
    (h : castValueFuel n PyValue.none t = .ok v) : v = PyValue.none := by
  cases n with
  | zero => simp [castValueFuel] at h
  | succ n =>
      simp only [castValueFuel] at h
      split at h
      · cases h; rfl
      · cases h

/-- Deduplication returns a subset of its input. -/
theorem pyDedupAux_subset (ts : List DataType) :
    ∀ (seen : List PyClass) (x : DataType), x ∈ pyDedupAux seen ts → x ∈ ts := by
  induction ts with
  | nil => intro seen x h; simp [pyDedupAux] at h
  | cons t rest ih =>
      intro seen x h
      simp only [pyDedupAux] at h
      split at h
      · exact List.mem_cons_of_mem _ (ih seen x h)
      · rcases List.mem_cons.mp h with rfl | h2
        · exact List.mem_cons_self _ _
        · exact List.mem_cons_of_mem _ (ih _ x h2)

/-- Every class occurring in the input and not already seen has a
representative in the deduplicated list. -/
theorem pyDedupAux_repr (ts : List DataType) :
    ∀ (seen : List PyClass) (x : DataType), x ∈ ts →
      x.pyClass ∈ seen ∨ ∃ y ∈ pyDedupAux seen ts, y.pyClass = x.pyClass := by
  induction ts with
  | nil => intro seen x h; cases h
  | cons t rest ih =>
      intro seen x h
      rcases List.mem_cons.mp h with rfl | hx
      · simp only [pyDedupAux]
        split
        · exact Or.inl ‹_›
        · exact Or.inr ⟨x, List.mem_cons_self _ _, rfl⟩
      · simp only [pyDedupAux]
        split
        · exact ih seen x hx
        · rcases ih (t.pyClass :: seen) x hx with hmem | ⟨y, hy, hcy⟩
          · rcases List.mem_cons.mp hmem with heq | hmem2
            · exact Or.inr ⟨t, List.mem_cons_self _ _, heq.symm⟩
            · exact Or.inl hmem2
          · exact Or.inr ⟨y, List.mem_cons_of_mem _ hy, hcy⟩

/-- A concrete numeric type (Integer, Float or Decimal by class) is not a
Null variant. -/
theorem numeric_class_not_null (t : DataType)
    (h : t.pyClass = PyClass.cInteger ∨ t.pyClass = PyClass.cFloat ∨
         t.pyClass = PyClass.cDecimal) :
    t.isNullVariant = false := by
  rcases h with h | h | h <;>
    simp [DataType.isNullVariant, DataType.instanceOf, PyClass.subclassOf, h,
      PyClass.parent]

/-- When every step of `_unify_types` before the `StringType` fallback is
ruled out, the fallback is returned. -/
theorem unifyFuel_fallback (n : Nat) (types : List DataType)
    (h1 : ¬ (pyDedup types).length = 1)
    (h2 : ¬ ((pyDedup types).filter (fun t => !t.isNullVariant)).length = 1)
    (h3 : ¬ ∀ t ∈ pyDedup types, t.instanceOf PyClass.cList = true)
    (h4 : ¬ ∀ t ∈ pyDedup types, t.instanceOf PyClass.cStruct = true) :
    unifyFuel (n + 1) types = .StringType := by
  have hb1 : ((pyDedup types).length == 1) = false := by
    simp [h1]
  have hb2 : (((pyDedup types).filter (fun t => !t.isNullVariant)).length == 1) = false := by
    simp [h2]
  have hall1 : (pyDedup types).all (fun t => t.instanceOf PyClass.cList) = false :=
    Bool.eq_false_iff.mpr (fun hc => h3 (List.all_eq_true.mp hc))
  have hall2 : (pyDedup types).all (fun t => t.instanceOf PyClass.cStruct) = false :=
    Bool.eq_false_iff.mpr (fun hc => h4 (List.all_eq_true.mp hc))
  simp [unifyFuel, hb1, hb2, hall1, hall2]

/-- The struct branch of `cast_value` (one fuel layer) succeeds exactly
field by field over the target's fields; on success the result pairs carry
the target's field names in order, and a field absent from the input dict
was cast from `None`, hence came out as `None`. -/
theorem castFields_ok (n : Nat) (kvs : List (String × PyValue)) :
    ∀ (fields : List (String × DataType)) (ps : List (String × PyValue)),
      (fields.mapM (fun kft =>
        (castValueFuel n (PyValue.dictGetD kvs kft.1) kft.2).map
          (fun cv => (kft.1, cv)))) = .ok ps →
      ps.map Prod.fst = fields.map Prod.fst ∧
      (∀ k ft, (k, ft) ∈ fields → List.lookup k kvs = Option.none →
        (k, PyValue.none) ∈ ps) := by
  intro fields
  induction fields with
  | nil =>
      intro ps h
      simp only [List.mapM_nil, pure, Except.pure, Except.ok.injEq] at h
      subst h
      exact ⟨rfl, by intro k ft hmem; cases hmem⟩
  | cons kft rest ih =>
      intro ps h
      rw [List.mapM_cons] at h
      cases hx : (castValueFuel n (PyValue.dictGetD kvs kft.1) kft.2).map
          (fun cv => (kft.1, cv)) with
      | error e => rw [hx] at h; simp [Bind.bind, Except.bind] at h
      | ok x =>
          rw [hx] at h
          simp only [Bind.bind, Except.bind] at h
          cases hrest : rest.mapM (fun kft =>
              (castValueFuel n (PyValue.dictGetD kvs kft.1) kft.2).map
                (fun cv => (kft.1, cv))) with
          | error e => rw [hrest] at h; simp at h
          | ok xs =>
              rw [hrest] at h
              simp only [pure, Except.pure, Except.ok.injEq] at h
              subst h
              obtain ⟨cv, hcv, hx2⟩ := (mapExcept_ok _ _ _).mp hx
              obtain ⟨ihmap, ihmem⟩ := ih xs hrest
              constructor
              · simp [← hx2, ihmap]
              · intro k ft hmem hlk
                rcases List.mem_cons.mp hmem with heq | hmem2
                · have hk : kft.1 = k := by rw [← heq]
                  have hft : kft.2 = ft := by rw [← heq]
                  rw [hk, hft] at hcv
                  have hget : PyValue.dictGetD kvs k = PyValue.none := by
                    simp [PyValue.dictGetD, hlk]
                  rw [hget] at hcv
                  have := castValueFuel_none_ok n ft cv hcv
                  subst this
                  rw [← hx2, hk]
                  exact List.mem_cons_self _ _
                · exact List.mem_cons_of_mem _ (ihmem k ft hmem2 hlk)

/-! ### Claim theorems -/

/-- C8: `infer_type` returns Integer for the int 42, Float for any
non-NaN float (3.14 included), the numeric Null for any NaN float, Integer
for the string "42", Decimal for the string "3.14", Datetime for the string
"2024-01-01", and String for the string "hello"; on strings it applies the
stated precedence — integer parse, then decimal parse, then datetime match,
then the String fallback. -/
theorem C8_infer_type_scalars :
    SchemaInference.infer_type (.int 42) = .ok .IntegerType ∧
    (∀ q : Rat, SchemaInference.infer_type (.float false q) = .ok .FloatType) ∧
    (∀ q : Rat, SchemaInference.infer_type (.float true q) = .ok .NumericNullType) ∧
    SchemaInference.infer_type (.str "42") = .ok .IntegerType ∧
    SchemaInference.infer_type (.str "3.14") = .ok .DecimalType ∧
    SchemaInference.infer_type (.str "2024-01-01") = .ok .DatetimeType ∧
    SchemaInference.infer_type (.str "hello") = .ok .StringType ∧
    (∀ s : String, SchemaInference.infer_type (.str s) = .ok
      (if SchemaHelper.is_integer s then .IntegerType
       else if SchemaHelper.is_decimal s then .DecimalType
       else if SchemaHelper.is_datetime s then .DatetimeType
       else .StringType)) :=
  ⟨rfl, fun _ => rfl, fun _ => rfl, rfl, rfl, rfl, rfl, fun _ => rfl⟩

/-- C1 counterexample: unifying the distinct numeric types Integer and
Float yields `StringType`, not `FloatType` — `_unify_types` has no
numeric-collapse rule, only the final `StringType` fallback (and
`StringType` is not Python-equal to `FloatType`). -/
theorem C1_counterexample :
    SchemaInference._unify_types [DataType.IntegerType, DataType.FloatType] =
      DataType.StringType ∧
    DataType.pyEq DataType.StringType DataType.FloatType = false :=
  ⟨rfl, rfl⟩

/-- Whether a type is a Null variant depends only on its class. -/
theorem isNullVariant_of_pyClass (t u : DataType) (h : t.pyClass = u.pyClass) :
    t.isNullVariant = u.isNullVariant := by
  unfold DataType.isNullVariant DataType.instanceOf
  rw [h]

/-- C1 amended: for every collection of observed types that, after
discarding Null variants, contains at least two distinct types, all of
which are concrete numerics (Integer, Float or Decimal), `_unify_types`
returns `StringType` — the generic text fallback — rather than collapsing
to Float.  Null variants may appear in the collection: they are discarded
by the null-filter step, after which the two or more surviving numeric
classes rule out the single-survivor, all-list and all-struct branches. -/
theorem C1_amended (ts : List DataType)
    (hnum : ∀ t ∈ ts, t.isNullVariant = false →
      t.pyClass = PyClass.cInteger ∨ t.pyClass = PyClass.cFloat ∨
      t.pyClass = PyClass.cDecimal)
    (hdist : ∃ a ∈ ts, ∃ b ∈ ts, a.isNullVariant = false ∧ b.isNullVariant = false ∧
      a.pyClass ≠ b.pyClass) :
    SchemaInference._unify_types ts = DataType.StringType := by
  obtain ⟨a, ha, b, hb, hna, hnb, hab⟩ := hdist
  have hra := pyDedupAux_repr ts [] a ha
  have hrb := pyDedupAux_repr ts [] b hb
  rcases hra with h | ⟨ya, hya, hca⟩
  · cases h
  rcases hrb with h | ⟨yb, hyb, hcb⟩
  · cases h
  have hya2 : ya ∈ pyDedup ts := hya
  have hyb2 : yb ∈ pyDedup ts := hyb
  -- the representatives of a and b are non-null and concretely numeric
  have hnya : ya.isNullVariant = false := by
    rw [isNullVariant_of_pyClass ya a hca]; exact hna
  have hnyb : yb.isNullVariant = false := by
    rw [isNullVariant_of_pyClass yb b hcb]; exact hnb
  have hclassya : ya.pyClass = PyClass.cInteger ∨ ya.pyClass = PyClass.cFloat ∨
      ya.pyClass = PyClass.cDecimal := by
    rw [hca]; exact hnum a ha hna
  have h1 : ¬ (pyDedup ts).length = 1 := by
    intro hlen
    obtain ⟨z, hz⟩ := List.length_eq_one.mp hlen
    rw [hz] at hya2 hyb2
    have ha' : ya = z := by simpa using hya2
    have hb' : yb = z := by simpa using hyb2
    apply hab
    rw [← hca, ← hcb, ha', hb']
  -- both representatives survive the null-discarding filter
  have hyaf : ya ∈ (pyDedup ts).filter (fun t => !t.isNullVariant) :=
    List.mem_filter.mpr ⟨hya2, by simp [hnya]⟩
  have hybf : yb ∈ (pyDedup ts).filter (fun t => !t.isNullVariant) :=
    List.mem_filter.mpr ⟨hyb2, by simp [hnyb]⟩
  have h2 : ¬ ((pyDedup ts).filter (fun t => !t.isNullVariant)).length = 1 := by
    intro hlen
    obtain ⟨z, hz⟩ := List.length_eq_one.mp hlen
    rw [hz] at hyaf hybf
    have ha' : ya = z := by simpa using hyaf
    have hb' : yb = z := by simpa using hybf
    apply hab
    rw [← hca, ← hcb, ha', hb']
  have h3 : ¬ ∀ t ∈ pyDedup ts, t.instanceOf PyClass.cList = true := by
    intro hall
    have hlist := hall ya hya2
    rcases hclassya with h | h | h <;>
      simp [DataType.instanceOf, PyClass.subclassOf, PyClass.parent, h] at hlist
  have h4 : ¬ ∀ t ∈ pyDedup ts, t.instanceOf PyClass.cStruct = true := by
    intro hall
    have hstruct := hall ya hya2
    rcases hclassya with h | h | h <;>
      simp [DataType.instanceOf, PyClass.subclassOf, PyClass.parent, h] at hstruct
  unfold SchemaInference._unify_types
  exact unifyFuel_fallback _ ts h1 h2 h3 h4

/-- C1 witness: a collection holding Integer, the numeric Null and Float —
after discarding the Null variant, two distinct numeric types remain — and
unifying it gives `StringType` (by the amended claim applied at that
collection, exercising the null-discarding step). -/
theorem C1_witness :
    SchemaInference._unify_types
      [DataType.IntegerType, DataType.NumericNullType, DataType.FloatType] =
      DataType.StringType := by
  apply C1_amended
  · intro t ht hnull
    rcases List.mem_cons.mp ht with rfl | ht2
    · exact Or.inl rfl
    rcases List.mem_cons.mp ht2 with rfl | ht3
    · cases hnull
    rcases List.mem_cons.mp ht3 with rfl | h4
    · exact Or.inr (Or.inl rfl)
    · cases h4
  · exact ⟨.IntegerType, List.mem_cons_self _ _,
      .FloatType,
      List.mem_cons_of_mem _ (List.mem_cons_of_mem _ (List.mem_cons_self _ _)),
      rfl, rfl, by decide⟩

/-- C2 counterexample: Python equality on types is not structural —
`ListType(IntegerType()) == ListType(StringType())` and
`StructType(a: IntegerType) == StructType(a: StringType)` are both true,
because `DataType.__eq__` compares classes only. -/
theorem C2_counterexample :
    DataType.pyEq (.ListType .IntegerType) (.ListType .StringType) = true ∧
    DataType.pyEq (.StructType [("a", .IntegerType)])
      (.StructType [("a", .StringType)]) = true :=
  ⟨rfl, rfl⟩

/-- C2 amended: equality on Type values is class-based, not structural —
two types are Python-equal exactly when they are instances of the same
class; in particular any two List types are equal regardless of their inner
types, any two Struct types are equal regardless of their field maps, and a
List type is never equal to a Struct type. -/
theorem C2_amended :
    (∀ t1 t2 : DataType, DataType.pyEq t1 t2 = (t1.pyClass == t2.pyClass)) ∧
    (∀ i1 i2 : DataType, DataType.pyEq (.ListType i1) (.ListType i2) = true) ∧
    (∀ f1 f2 : List (String × DataType),
      DataType.pyEq (.StructType f1) (.StructType f2) = true) ∧
    (∀ (i : DataType) (f : List (String × DataType)),
      DataType.pyEq (.ListType i) (.StructType f) = false) := by
  refine ⟨?_, fun i1 i2 => rfl, fun f1 f2 => rfl, fun i f => rfl⟩
  intro t1 t2
  cases t1 <;> cases t2 <;> rfl

/-- C3 counterexample: `is_compatible` is not the claimed symmetric,
recursively structural relation — the numeric Null reports itself
compatible with the temporal `DateType` (every Null type is compatible with
everything), and `ListType(IntegerType())` reports itself compatible with
`ListType(StringType())` even though the inner types are incompatible (no
recursive check is performed). -/
theorem C3_counterexample :
    DataType.is_compatible .NumericNullType .DateType = true ∧
    DataType.is_compatible (.ListType .IntegerType) (.ListType .StringType) = true ∧
    DataType.is_compatible .IntegerType .StringType = false :=
  ⟨rfl, rfl, rfl⟩

/-- C3 amended: `t1.is_compatible(t2)` is true exactly when t1 is a Null
variant (Nulls are compatible with every type, whatever its category), or
t1 and t2 are both non-null numerics, or both non-null temporals, or both
non-null nested types (List/Struct, with no recursive inner check), or t1
is categorical and t2 is an instance of t1's own class.  The relation is
one-directional: a concrete type is not compatible with its category's
Null. -/
theorem C3_amended :
    ∀ t1 t2 : DataType,
      DataType.is_compatible t1 t2 =
        (t1.isNullVariant ||
         (t1.instanceOf .cNumeric && t2.instanceOf .cNumeric) ||
         (t1.instanceOf .cTemporal && t2.instanceOf .cTemporal) ||
         (t1.instanceOf .cNested && t2.instanceOf .cNested) ||
         (t1.instanceOf .cCategorical && t2.instanceOf t1.pyClass)) := by
  intro t1 t2
  cases t1 <;> cases t2 <;> rfl

/-- C5 counterexample: `promote(t, genericNull)` does not equal `t` for
every type — for `t` the numeric Null, the null-absorption rule fires on
the left argument first and returns the generic `NestedNullType()`, which
is not Python-equal to `NumericNullType()`. -/
theorem C5_counterexample :
    TypeCast.promote_types .NumericNullType .NestedNullType = .ok .NestedNullType ∧
    DataType.pyEq .NestedNullType .NumericNullType = false ∧
    DataType.pyEq .NumericNullType .NestedNullType = false :=
  ⟨rfl, rfl, rfl⟩

/-- C5 amended: `promote(genericNull, t)` returns `t` itself for every
type `t`; `promote(t, genericNull)` returns `t` itself for every `t` that
is not a Null variant, and returns the generic Null for the four Null
variants (so the identity fails for the numeric, temporal and categorical
Nulls). -/
theorem C5_amended :
    ∀ t : DataType,
      TypeCast.promote_types .NestedNullType t = .ok t ∧
      TypeCast.promote_types t .NestedNullType =
        .ok (if t.isNullVariant then DataType.NestedNullType else t) := by
  intro t
  constructor
  · cases t <;> rfl
  · cases t <;> rfl

/-- C6 counterexample: casting the string "not-a-number" to Integer raises
Python's built-in `ValueError` from `int(value)`, not an engine-defined
`CastError` — the engine's exception module defines no `CastError` class at
all, and `cast_value` does not catch the built-in. -/
theorem C6_counterexample :
    TypeCast.cast_value (.str "not-a-number") .IntegerType =
      .error (.valueError ("invalid literal for int() with base 10: "
        ++ pyReprStr "not-a-number")) ∧
    (∀ m : String, Err.isEngineError (.valueError m) = false) :=
  ⟨rfl, fun _ => rfl⟩

/-- C6 amended: for every string that does not parse as a Python integer
literal, casting it to Integer raises the built-in `ValueError`, whose
message names the `repr` of the offending value; no engine `CastError`
exists or is raised. -/
theorem C6_amended (s : String) (h : pyIntOfString s = Option.none) :
    TypeCast.cast_value (.str s) .IntegerType =
      .error (.valueError ("invalid literal for int() with base 10: "
        ++ pyReprStr s)) := by
  unfold TypeCast.cast_value
  simp [castValueFuel, DataType.depth, pyInt, h, Except.map]

/-- C6 witness: "not-a-number" is not an integer literal, and the amended
claim applies to it. -/
theorem C6_witness :
    pyIntOfString "not-a-number" = Option.none ∧
    TypeCast.cast_value (.str "not-a-number") .IntegerType =
      .error (.valueError ("invalid literal for int() with base 10: "
        ++ pyReprStr "not-a-number")) :=
  ⟨rfl, C6_amended "not-a-number" rfl⟩

/-- C7 counterexample: the engine's `cast_value` has no Duration branch —
casting "07:30:00" to `DurationType` falls through to
`ConversionError("Unsupported target type: DurationType")` instead of
returning 7h30m. -/
theorem C7_counterexample :
    TypeCast.cast_value (.str "07:30:00") .DurationType =
      .error (.conversionError "Unsupported target type: DurationType") :=
  rfl

/-- C7 amended: `TypeCast.cast_value` with a Duration target always fails
with `ConversionError("Unsupported target type: DurationType")`; the
`HH:MM:SS` parsing lives only in the `DurationType.cast` method of the type
class itself, which maps "07:30:00" to the 7-hour-30-minute timedelta
(27000 seconds). -/
theorem C7_amended :
    TypeCast.cast_value (.str "07:30:00") .DurationType =
      .error (.conversionError "Unsupported target type: DurationType") ∧
    (∀ v : PyValue, v ≠ .none →
      TypeCast.cast_value v .DurationType =
        .error (.conversionError "Unsupported target type: DurationType")) ∧
    DurationType.cast (.str "07:30:00") = .ok (.timedelta 27000) := by
  refine ⟨rfl, ?_, rfl⟩
  intro v hv
  unfold TypeCast.cast_value
  cases v <;> first | rfl | exact absurd rfl hv

/-- C7 witness: the universally quantified conjunct of the amended claim
applied at the concrete string "07:30:00". -/
theorem C7_witness :
    TypeCast.cast_value (.str "07:30:00") .DurationType =
      .error (.conversionError "Unsupported target type: DurationType") :=
  C7_amended.2.1 (.str "07:30:00") (by intro h; cases h)

/-- The rejection condition `normalize_hostname` actually applies to the
trimmed, lower-cased hostname: empty, longer than 255 characters, or some
dot-separated label longer than 63 characters.  (There is no trailing-dot
condition.) -/
def hostnameBad (h : String) : Prop :=
  h = "" ∨ 255 < h.length ∨ ∃ label ∈ pySplit '.' h, 63 < label.length

instance (h : String) : Decidable (hostnameBad h) := by
  unfold hostnameBad; exact inferInstance

/-- C9 counterexample: a hostname with a trailing dot is accepted — the
code never checks for one (the trailing dot only contributes an empty final
label, which passes the 63-character bound), contradicting the claimed
trailing-dot rejection. -/
theorem C9_counterexample :
    Normalization.normalize_hostname "example.com." = .ok "example.com." :=
  rfl

/-- C9 amended: `normalize_hostname` raises `NormalizationError` exactly
when the trimmed, lower-cased string is empty, longer than 255 characters,
or has a dot-separated label longer than 63 characters; otherwise it
returns the trimmed, lower-cased hostname — trailing dots are accepted. -/
theorem C9_amended (s : String) :
    (¬ hostnameBad (pyLower (pyStrip s)) →
      Normalization.normalize_hostname s = .ok (pyLower (pyStrip s))) ∧
    (hostnameBad (pyLower (pyStrip s)) →
      Normalization.normalize_hostname s =
        .error (.normalizationError ("Invalid hostname: " ++ pyLower (pyStrip s)))) := by
  have hiff : (pyLower (pyStrip s) = "" || 255 < (pyLower (pyStrip s)).length
      || (pySplit '.' (pyLower (pyStrip s))).any (fun label => 63 < label.length)) = true
      ↔ hostnameBad (pyLower (pyStrip s)) := by
    simp [hostnameBad, List.any_eq_true, or_assoc]
  constructor
  · intro hn
    show (if _ then _ else _) = _
    rw [if_neg (fun hc => hn (hiff.mp hc))]
  · intro hy
    show (if _ then _ else _) = _
    rw [if_pos (hiff.mpr hy)]

/-- C9 witness: the amended claim applied at a mixed-case hostname with
surrounding whitespace (accepted and canonicalized) and at a whitespace-only
hostname (rejected as empty). -/
theorem C9_witness :
    Normalization.normalize_hostname " ExAmple.COM " = .ok "example.com" ∧
    Normalization.normalize_hostname "   " =
      .error (.normalizationError ("Invalid hostname: " ++ "")) := by
  constructor
  · exact (C9_amended " ExAmple.COM ").1 (by decide)
  · exact (C9_amended "   ").2 (by decide)

/-- C10 counterexample: casting a dict to a Struct does not return a
mapping for every dict and every Struct target — casting the empty dict to
`StructType(a: NestedNullType)` raises `ConversionError`, because the
absent field is cast from `None` and a Null target rejects `None`. -/
theorem C10_counterexample :
    TypeCast.cast_value (.dict []) (.StructType [("a", .NestedNullType)]) =
      .error (.conversionError "Cannot cast None to NestedNullType") :=
  rfl

/-- C10 amended: whenever casting a dict value to a Struct target
*succeeds*, the result is a mapping whose key sequence is exactly the
target's field names in the target's field order (so input keys not named
in the target are silently dropped), and every target field absent from
the input was cast from Null and came out as Null. -/
theorem C10_amended (kvs : List (String × PyValue))
    (fields : List (String × DataType)) (v : PyValue)
    (h : TypeCast.cast_value (.dict kvs) (.StructType fields) = .ok v) :
    ∃ ps, v = .dict ps ∧
      ps.map Prod.fst = fields.map Prod.fst ∧
      (∀ k ft, (k, ft) ∈ fields → List.lookup k kvs = Option.none →
        (k, PyValue.none) ∈ ps) := by
  unfold TypeCast.cast_value at h
  rw [show DataType.depth (.StructType fields) = DataType.fieldsDepth fields + 1
    from rfl] at h
  simp only [castValueFuel] at h
  obtain ⟨ps, hps, hv⟩ := (mapExcept_ok _ _ _).mp h
  obtain ⟨h1, h2⟩ := castFields_ok _ kvs fields ps hps
  exact ⟨ps, hv.symm, h1, h2⟩

/-- C10 witness: the amended claim applied to a concrete cast — input keys
`a` (present) and `z` (extra), target fields `a: Integer` and `b: String` —
whose result keeps exactly `a` and `b` in target order, with the absent `b`
coming out as Null. -/
theorem C10_witness :
    ∃ ps, PyValue.dict [("a", PyValue.int 1), ("b", PyValue.none)] = .dict ps ∧
      ps.map Prod.fst =
        [("a", DataType.IntegerType), ("b", DataType.StringType)].map Prod.fst ∧
      (∀ k ft, (k, ft) ∈ [("a", DataType.IntegerType), ("b", DataType.StringType)] →
        List.lookup k [("a", PyValue.int 1), ("z", PyValue.str "extra")] = Option.none →
        (k, PyValue.none) ∈ ps) :=
  C10_amended [("a", PyValue.int 1), ("z", PyValue.str "extra")]
    [("a", DataType.IntegerType), ("b", DataType.StringType)]
    (PyValue.dict [("a", PyValue.int 1), ("b", PyValue.none)]) rfl

/-- C4 (code bug): serializing `\x7b"root": \x7b"a": 1, "tags":
["x","y"]\x7d\x7d` with the io XML adapter produces a `tags` element whose
two `item` children carry *no text* — each instead contains a nested empty
`item` element, because `build_element` wraps every list item in an `item`
wrapper and then recurses with the `NestedNullType` schema whenever the
list's inner type is not a Struct, emitting empty text and losing the
values "x" and "y".  Parsing the XML the claim describes
(`<root><a>1</a><tags><item>x</item><item>y</item></tags></root>`) also
does not yield `\x7b"tags": ["x","y"]\x7d`: `from_xml` wraps the root's
children in a list under the root tag and keeps the `item` wrapper, giving
`\x7b"root": ["1", \x7b"item": ["x","y"]\x7d]\x7d`. -/
theorem C4_xml_eval :
    XMLAdapter.to_xml
      (.dict [("root", .dict [("a", .int 1), ("tags", .list [.str "x", .str "y"])])]) =
    .ok ⟨"root", Option.none,
      [⟨"a", some "1", []⟩,
       ⟨"tags", Option.none,
        [⟨"item", Option.none, [⟨"item", some "", []⟩]⟩,
         ⟨"item", Option.none, [⟨"item", some "", []⟩]⟩]⟩]⟩ ∧
    XMLAdapter.from_xml
      ⟨"root", Option.none,
       [⟨"a", some "1", []⟩,
        ⟨"tags", Option.none, [⟨"item", some "x", []⟩, ⟨"item", some "y", []⟩]⟩]⟩ =
    .ok (.dict [("root", .list [.str "1", .dict [("item", .list [.str "x", .str "y"])]])],
         .StructType [("root", .ListType .StringType)]) :=
  ⟨rfl, rfl⟩
